import Mathlib

/-
Shallow embedding of src/lambda_modernized.py (vls-lambda).

The program fetches bike-share station data from the JCDecaux API and
archives the raw response text in an S3 bucket.  External library calls
(requests.get, json.loads, time.strftime/gmtime, boto3 put_object, and the
process environment) are modelled as explicit inputs: a `World` value fixes
the outcome each such call would have during one invocation, and the
embedded functions record the calls they make (HTTP requests issued, S3
put_object calls issued) in their result so that "zero network calls" and
"zero storage writes" become statements about those traces.

Python exceptions are modelled explicitly: a function that can raise to its
caller returns `Except String _` (the `String` naming the exception), and a
`try/except` block is a `match` on that result.  Module-level globals that
may be unbound (because the module-level try swallowed a ValueError during
import) are `Option String`, with `none` meaning "referencing this name
raises NameError".
-/

namespace VlsLambda

/-- JSON values as returned by json.loads.  Numbers are modelled as integers;
floating-point precision is irrelevant to every property considered here. -/
inductive Json where
  | null
  | bool (b : Bool)
  | num (n : Int)
  | str (s : String)
  | arr (elems : List Json)
  | obj (fields : List (String × Json))

/-- Python len() applied to a parsed JSON value: defined for strings, arrays
and objects, a TypeError (modelled as `none`) otherwise. -/
def Json.pyLen : Json → Option Nat
  | .str s => some s.length
  | .arr xs => some xs.length
  | .obj fs => some fs.length
  | _ => none

/-- Field lookup in a JSON object (none on non-objects or missing keys). -/
def Json.lookup (j : Json) (k : String) : Option Json :=
  match j with
  | .obj fs => List.lookup k fs
  | _ => none

/-- Whether the Python object this JSON value decodes to has a .get method:
only dicts do; lists, strings, numbers, booleans and None do not. -/
def Json.hasGetMethod : Json → Bool
  | .obj _ => true
  | _ => false

/-- Broken-down wall-clock time at second resolution, as produced by
time.gmtime / time.localtime. -/
structure Tm where
  year : Nat
  month : Nat
  day : Nat
  hour : Nat
  minute : Nat
  second : Nat

/-- Zero-pad a numeral to width 2 (strftime field padding). -/
def pad2 (n : Nat) : String :=
  if n < 10 then "0" ++ toString n else toString n

/-- Zero-pad a numeral to width 4 (strftime %Y padding). -/
def pad4 (n : Nat) : String :=
  if n < 10 then "000" ++ toString n
  else if n < 100 then "00" ++ toString n
  else if n < 1000 then "0" ++ toString n
  else toString n

/-- time.strftime with format %Y%m%d-%H%M%S (the storage-key timestamp). -/
def strftime_compact (t : Tm) : String :=
  pad4 t.year ++ pad2 t.month ++ pad2 t.day ++ "-" ++
    pad2 t.hour ++ pad2 t.minute ++ pad2 t.second

/-- time.strftime with format %Y-%m-%dT%H:%M:%SZ (the success metadata
timestamp). -/
def strftime_iso_z (t : Tm) : String :=
  pad4 t.year ++ "-" ++ pad2 t.month ++ "-" ++ pad2 t.day ++ "T" ++
    pad2 t.hour ++ ":" ++ pad2 t.minute ++ ":" ++ pad2 t.second ++ "Z"

/-- The process environment: os.environ as a partial map. -/
abbrev Env := String → Option String

/-- get_env_var(var_name, default): os.environ.get(var_name, default),
raising ValueError (modelled as `Except.error` with the source's message)
when the result is None. -/
def get_env_var (env : Env) (var_name : String) (default : Option String) :
    Except String String :=
  match env var_name with
  | some value => Except.ok value
  | none =>
    match default with
    | some value => Except.ok value
    | none =>
      Except.error ("Required environment variable " ++ var_name ++ " is not set")

/-- The five module-level globals assigned in the import-time try block.
`none` means the name was left unbound because an earlier assignment in the
block raised ValueError (the except clause only logs). -/
structure ModuleGlobals where
  contract : Option String
  api_key : Option String
  bucket_name : Option String
  key_id : Option String
  key_secret : Option String

/-- The import-time try block: the assignments run in order, and the first
get_env_var failure aborts the block leaving the remaining names unbound.
Note KEY_ID and KEY_SECRET pass default=None, so get_env_var raises for
them exactly as for required variables. -/
def module_load (env : Env) : ModuleGlobals :=
  match get_env_var env "CONTRACT" none with
  | .error _ => ⟨none, none, none, none, none⟩
  | .ok c =>
    match get_env_var env "API_KEY" none with
    | .error _ => ⟨some c, none, none, none, none⟩
    | .ok a =>
      match get_env_var env "BUCKET_NAME" none with
      | .error _ => ⟨some c, some a, none, none, none⟩
      | .ok b =>
        match get_env_var env "KEY_ID" none with
        | .error _ => ⟨some c, some a, some b, none, none⟩
        | .ok k =>
          match get_env_var env "KEY_SECRET" none with
          | .error _ => ⟨some c, some a, some b, some k, none⟩
          | .ok s => ⟨some c, some a, some b, some k, some s⟩

/-- get_s3_client(): evaluates `if key_id and key_secret` over the module
globals.  Referencing an unbound global raises NameError; key_secret is only
evaluated when key_id is truthy (Python short-circuit).  The returned Bool
records whether static access keys are used (true) or the ambient role
client (false); the distinction has no effect on the write path. -/
def get_s3_client (g : ModuleGlobals) : Except String Bool :=
  match g.key_id with
  | none => Except.error "NameError: name key_id is not defined"
  | some kid =>
    if kid ≠ "" then
      match g.key_secret with
      | none => Except.error "NameError: name key_secret is not defined"
      | some ks => Except.ok (ks ≠ "")
    else
      Except.ok false

/-- Successful call of get_s3_client on these module globals. -/
def client_ok (g : ModuleGlobals) : Bool :=
  match get_s3_client g with
  | .ok _ => true
  | .error _ => false

/-- One s3.put_object call as issued by upload_to_s3. -/
structure S3Put where
  bucket : String
  key : String
  body : String
  contentType : String

/-- Result of one upload_to_s3 call: the returned boolean, the put_object
calls it issued (zero or one), and the exception its except clauses caught,
if any.  The function never re-raises: its Lean type is a plain structure,
not `Except`, which is the formal content of "failure is absorbed and
reported as a boolean". -/
structure UploadResult where
  ok : Bool
  attempts : List S3Put
  absorbed : Option String

/-- upload_to_s3(content): inside a try, obtains the client, computes the
timestamped filename from the module-global `contract`, and calls put_object
against the module-global `bucket_name`; ClientError or any other exception
(including NameError from unbound globals) is caught and turned into a
False return.  `s3_put_ok` fixes whether the store acknowledges the write
(false = the put_object call raises ClientError). -/
def upload_to_s3 (g : ModuleGlobals) (now : Tm) (s3_put_ok : Bool)
    (content : String) : UploadResult :=
  match get_s3_client g with
  | .error e => ⟨false, [], some e⟩
  | .ok _ =>
    let timestr := strftime_compact now
    match g.contract with
    | none => ⟨false, [], some "NameError: name contract is not defined"⟩
    | some c =>
      let filename := c ++ "-" ++ timestr ++ ".json"
      match g.bucket_name with
      | none => ⟨false, [], some "NameError: name bucket_name is not defined"⟩
      | some b =>
        let put : S3Put := ⟨b, filename, content, "application/json"⟩
        if s3_put_ok then ⟨true, [put], none⟩
        else ⟨false, [put], some "ClientError"⟩

/-- The object store: (bucket, key) to stored body. -/
abbrev S3Store := String × String → Option String

/-- Effect of one acknowledged put_object call on the store. -/
def apply_put (st : S3Store) (p : S3Put) : S3Store :=
  fun bk => if bk = (p.bucket, p.key) then some p.body else st bk

/-- Effect of an upload_to_s3 call on the store: only an acknowledged write
mutates it (a put_object call that raised ClientError stored nothing). -/
def apply_upload (st : S3Store) (r : UploadResult) : S3Store :=
  if r.ok then r.attempts.foldl apply_put st else st

/-- Outcome of the requests.get call fixed by the world: a response with a
status code and body text, a requests.exceptions.Timeout, or any other
requests.exceptions.RequestException. -/
inductive HttpResult where
  | response (status_code : Nat) (text : String)
  | timeout
  | request_error (msg : String)

/-- One HTTP request as issued by requests.get in the handler. -/
structure HttpRequest where
  url : String
  params : List (String × String)
  headers : List (String × String)
  timeout : Nat

/-- The external world of one invocation: the invocation-time environment,
the outcome the single upstream GET would have, the behaviour of json.loads
on any body text (error carries the JSONDecodeError message), the current
wall-clock time, and whether the store acknowledges a put_object call. -/
structure World where
  env : Env
  http : HttpResult
  json_loads : String → Except String Json
  now : Tm
  s3_put_ok : Bool

/-- One entry-point return value: statusCode plus the dictionary passed to
json.dumps as the body. -/
structure LambdaResult where
  statusCode : Nat
  body : Json

/-- The body dictionary every error return constructs. -/
def error_body (message : String) : Json :=
  Json.obj [("status", Json.str "error"), ("message", Json.str message)]

/-- Result of one invocation together with its effect trace. -/
structure HandlerOutput where
  result : LambdaResult
  http_requests : List HttpRequest
  upload_calls : List UploadResult

/-- All put_object calls issued during one invocation. -/
def storage_writes (o : HandlerOutput) : List S3Put :=
  (o.upload_calls.map UploadResult.attempts).flatten

/-- lambda_handler from the configuration check onward (source lines
101-236): validates the three required environment variables, issues the
GET with contract and apiKey as query parameters and timeout=5, classifies
the response, and on a parsed 200 delegates to upload_to_s3.  Every
modelled exception is caught by one of the except clauses and converted to
a statusCode/body dictionary. -/
def handler_body (g : ModuleGlobals) (w : World) : HandlerOutput :=
  match get_env_var w.env "CONTRACT" none with
  | .error e => ⟨⟨500, error_body e⟩, [], []⟩
  | .ok contract =>
  match get_env_var w.env "API_KEY" none with
  | .error e => ⟨⟨500, error_body e⟩, [], []⟩
  | .ok api_key =>
  match get_env_var w.env "BUCKET_NAME" none with
  | .error e => ⟨⟨500, error_body e⟩, [], []⟩
  | .ok _bucket_name =>
    let api_url := "https://api.jcdecaux.com/vls/v1/stations"
    let params := [("contract", contract), ("apiKey", api_key)]
    let req : HttpRequest :=
      ⟨api_url, params, [("Content-type", "application/json")], 5⟩
    match w.http with
    | .timeout =>
      ⟨⟨504, error_body "API request timed out"⟩, [req], []⟩
    | .request_error msg =>
      ⟨⟨500, error_body ("Request error: " ++ msg)⟩, [req], []⟩
    | .response status_code text =>
      if status_code = 200 then
        let result := text
        match w.json_loads result with
        | .error e =>
          ⟨⟨500, error_body ("Invalid JSON response: " ++ e)⟩, [req], []⟩
        | .ok stations_data =>
          match stations_data.pyLen with
          | none =>
            ⟨⟨500, error_body ("Unexpected error: " ++ "object has no len()")⟩,
              [req], []⟩
          | some station_count =>
            let up := upload_to_s3 g w.now w.s3_put_ok result
            if up.ok then
              ⟨⟨200, Json.obj
                  [("status", Json.str "success"),
                   ("message", Json.str
                     ("Data for " ++ contract ++
                       " successfully retrieved and stored")),
                   ("metadata", Json.obj
                     [("station_count", Json.num (station_count : Int)),
                      ("timestamp", Json.str (strftime_iso_z w.now))])]⟩,
                [req], [up]⟩
            else
              ⟨⟨500, error_body "Failed to upload data to S3"⟩, [req], [up]⟩
      else
        ⟨⟨status_code,
           error_body ("API request failed with status code: " ++
             toString status_code)⟩, [req], []⟩

/-- The execution context passed to the entry point, as it matters to the
handler: either falsy, or truthy without an aws_request_id attribute, or
truthy with one. -/
inductive PyContext where
  | falsy
  | truthyNoRequestId
  | truthyWithRequestId (aws_request_id : String)

/-- The full entry point (source lines 83-236): the log-correlation prelude
on lines 95-99 runs outside every try block and calls
event.get("source", "unknown") whenever the context is truthy and has an
aws_request_id; on a non-mapping event that attribute access raises an
AttributeError that nothing catches, modelled as `Except.error`.  Otherwise
the invocation proceeds as handler_body. -/
def lambda_handler (g : ModuleGlobals) (event : Json) (context : PyContext)
    (w : World) : Except String HandlerOutput :=
  match context with
  | .truthyWithRequestId _ =>
    if event.hasGetMethod then Except.ok (handler_body g w)
    else Except.error "AttributeError: event object has no attribute get"
  | _ => Except.ok (handler_body g w)

/-- The station_count reported in the metadata of a result body, if any. -/
def station_count_of (r : LambdaResult) : Option Json :=
  (r.body.lookup "metadata").bind (fun m => m.lookup "station_count")

/-- Whether a result body has one of the two shapes the handler constructs:
an error dictionary with status and message, or a success dictionary with
status, message and station_count/timestamp metadata. -/
def is_result_body : Json → Bool
  | .obj [("status", .str "error"), ("message", .str _)] => true
  | .obj [("status", .str "success"), ("message", .str _),
      ("metadata", .obj [("station_count", .num _), ("timestamp", .str _)])] =>
    true
  | _ => false

/-- Whether any of the three required configuration variables is absent. -/
def config_missing (e : Env) : Bool :=
  (e "CONTRACT").isNone || (e "API_KEY").isNone || (e "BUCKET_NAME").isNone

/-- The single GET request the handler issues once validation passed, given
the validated contract and api_key values. -/
def the_request (c a : String) : HttpRequest :=
  ⟨"https://api.jcdecaux.com/vls/v1/stations",
    [("contract", c), ("apiKey", a)],
    [("Content-type", "application/json")], 5⟩

/-! Concrete fixtures for witnesses and counterexamples. -/

/-- Fixture: module globals as loaded from a fully-populated environment with
empty-string access keys (so get_s3_client takes the ambient-role branch). -/
def g_full : ModuleGlobals := ⟨some "paris", some "k", some "bkt", some "", some ""⟩

/-- Fixture: an invocation environment with the three required variables. -/
def env_full : Env := fun v =>
  if v = "CONTRACT" then some "paris"
  else if v = "API_KEY" then some "k"
  else if v = "BUCKET_NAME" then some "bkt"
  else none

/-- Fixture: an invocation environment missing CONTRACT. -/
def env_noc : Env := fun v =>
  if v = "API_KEY" then some "k"
  else if v = "BUCKET_NAME" then some "bkt"
  else none

/-- Fixture: an invocation environment where CONTRACT is present but is the
empty string. -/
def env_empty_contract : Env := fun v =>
  if v = "CONTRACT" then some ""
  else if v = "API_KEY" then some "k"
  else if v = "BUCKET_NAME" then some "bkt"
  else none

/-- Fixture: an environment with nothing set (the module-load-time state in
the C10 scenario). -/
def env_at_load : Env := fun _ => none

/-- Fixture: 2024-03-01T10:15:30Z. -/
def t0 : Tm := ⟨2024, 3, 1, 10, 15, 30⟩

/-- Fixture: a json.loads behaviour that accepts exactly the text consisting
of an empty JSON array. -/
def jl0 : String → Except String Json := fun s =>
  if s = "[]" then Except.ok (Json.arr [])
  else Except.error "Expecting value"

/-- Fixture: a world whose GET returns 200 with body text consisting of an
empty JSON array, and whose store acknowledges the write. -/
def w_success : World := ⟨env_full, HttpResult.response 200 "[]", jl0, t0, true⟩

/-- Fixture: a world with CONTRACT unset at invocation time. -/
def w_noc : World := ⟨env_noc, HttpResult.timeout, jl0, t0, true⟩

/-- Fixture: the successful-fetch world with a store that rejects the
write. -/
def w_put_fails : World := ⟨env_full, HttpResult.response 200 "[]", jl0, t0, false⟩

/-- Fixture: a world whose GET times out. -/
def w_timeout : World := ⟨env_full, HttpResult.timeout, jl0, t0, true⟩

/-- Fixture: a world with an empty CONTRACT value and a GET that times out. -/
def w_empty_contract : World :=
  ⟨env_empty_contract, HttpResult.timeout, jl0, t0, true⟩

/-- Fixture: module globals whose load-time contract (lyon) differs from the
invocation-time CONTRACT (paris) of env_full. -/
def g_lyon : ModuleGlobals := ⟨some "lyon", some "k", some "bkt", some "", some ""⟩

/-- Fixture: the empty object store. -/
def empty_store : S3Store := fun _ => none

/-! Branch lemmas: closed forms of handler_body on each control-flow path. -/

theorem handler_body_contract_missing (g : ModuleGlobals) (w : World)
    (hc : w.env "CONTRACT" = none) :
    handler_body g w =
      ⟨⟨500, error_body ("Required environment variable " ++ "CONTRACT" ++
          " is not set")⟩, [], []⟩ := by
  simp [handler_body, get_env_var, hc]

theorem handler_body_api_key_missing (g : ModuleGlobals) (w : World)
    (c : String) (hc : w.env "CONTRACT" = some c)
    (ha : w.env "API_KEY" = none) :
    handler_body g w =
      ⟨⟨500, error_body ("Required environment variable " ++ "API_KEY" ++
          " is not set")⟩, [], []⟩ := by
  simp [handler_body, get_env_var, hc, ha]

theorem handler_body_bucket_missing (g : ModuleGlobals) (w : World)
    (c a : String) (hc : w.env "CONTRACT" = some c)
    (ha : w.env "API_KEY" = some a) (hb : w.env "BUCKET_NAME" = none) :
    handler_body g w =
      ⟨⟨500, error_body ("Required environment variable " ++ "BUCKET_NAME" ++
          " is not set")⟩, [], []⟩ := by
  simp [handler_body, get_env_var, hc, ha, hb]

theorem handler_body_timeout (g : ModuleGlobals) (w : World) (c a b : String)
    (hc : w.env "CONTRACT" = some c) (ha : w.env "API_KEY" = some a)
    (hb : w.env "BUCKET_NAME" = some b) (hh : w.http = HttpResult.timeout) :
    handler_body g w =
      ⟨⟨504, error_body "API request timed out"⟩, [the_request c a], []⟩ := by
  simp [handler_body, get_env_var, hc, ha, hb, hh, the_request]

theorem handler_body_request_error (g : ModuleGlobals) (w : World)
    (c a b m : String)
    (hc : w.env "CONTRACT" = some c) (ha : w.env "API_KEY" = some a)
    (hb : w.env "BUCKET_NAME" = some b)
    (hh : w.http = HttpResult.request_error m) :
    handler_body g w =
      ⟨⟨500, error_body ("Request error: " ++ m)⟩, [the_request c a], []⟩ := by
  simp [handler_body, get_env_var, hc, ha, hb, hh, the_request]

theorem handler_body_non_200 (g : ModuleGlobals) (w : World)
    (c a b t : String) (s : Nat)
    (hc : w.env "CONTRACT" = some c) (ha : w.env "API_KEY" = some a)
    (hb : w.env "BUCKET_NAME" = some b)
    (hh : w.http = HttpResult.response s t) (hs : s ≠ 200) :
    handler_body g w =
      ⟨⟨s, error_body ("API request failed with status code: " ++ toString s)⟩,
        [the_request c a], []⟩ := by
  simp [handler_body, get_env_var, hc, ha, hb, hh, hs, the_request]

theorem handler_body_bad_json (g : ModuleGlobals) (w : World)
    (c a b t e : String)
    (hc : w.env "CONTRACT" = some c) (ha : w.env "API_KEY" = some a)
    (hb : w.env "BUCKET_NAME" = some b)
    (hh : w.http = HttpResult.response 200 t)
    (hj : w.json_loads t = Except.error e) :
    handler_body g w =
      ⟨⟨500, error_body ("Invalid JSON response: " ++ e)⟩,
        [the_request c a], []⟩ := by
  simp [handler_body, get_env_var, hc, ha, hb, hh, hj, the_request]

theorem handler_body_no_len (g : ModuleGlobals) (w : World)
    (c a b t : String) (j : Json)
    (hc : w.env "CONTRACT" = some c) (ha : w.env "API_KEY" = some a)
    (hb : w.env "BUCKET_NAME" = some b)
    (hh : w.http = HttpResult.response 200 t)
    (hj : w.json_loads t = Except.ok j) (hn : j.pyLen = none) :
    handler_body g w =
      ⟨⟨500, error_body ("Unexpected error: " ++ "object has no len()")⟩,
        [the_request c a], []⟩ := by
  simp [handler_body, get_env_var, hc, ha, hb, hh, hj, hn, the_request]

theorem handler_body_upload_ok (g : ModuleGlobals) (w : World)
    (c a b t : String) (j : Json) (n : Nat)
    (hc : w.env "CONTRACT" = some c) (ha : w.env "API_KEY" = some a)
    (hb : w.env "BUCKET_NAME" = some b)
    (hh : w.http = HttpResult.response 200 t)
    (hj : w.json_loads t = Except.ok j) (hn : j.pyLen = some n)
    (hu : (upload_to_s3 g w.now w.s3_put_ok t).ok = true) :
    handler_body g w =
      ⟨⟨200, Json.obj
          [("status", Json.str "success"),
           ("message", Json.str
             ("Data for " ++ c ++ " successfully retrieved and stored")),
           ("metadata", Json.obj
             [("station_count", Json.num (n : Int)),
              ("timestamp", Json.str (strftime_iso_z w.now))])]⟩,
        [the_request c a], [upload_to_s3 g w.now w.s3_put_ok t]⟩ := by
  simp [handler_body, get_env_var, hc, ha, hb, hh, hj, hn, hu, the_request]

theorem handler_body_upload_fails (g : ModuleGlobals) (w : World)
    (c a b t : String) (j : Json) (n : Nat)
    (hc : w.env "CONTRACT" = some c) (ha : w.env "API_KEY" = some a)
    (hb : w.env "BUCKET_NAME" = some b)
    (hh : w.http = HttpResult.response 200 t)
    (hj : w.json_loads t = Except.ok j) (hn : j.pyLen = some n)
    (hu : (upload_to_s3 g w.now w.s3_put_ok t).ok = false) :
    handler_body g w =
      ⟨⟨500, error_body "Failed to upload data to S3"⟩,
        [the_request c a], [upload_to_s3 g w.now w.s3_put_ok t]⟩ := by
  simp [handler_body, get_env_var, hc, ha, hb, hh, hj, hn, hu, the_request]

/-! Lemmas about upload_to_s3. -/

theorem upload_to_s3_success (g : ModuleGlobals) (now : Tm)
    (content gc gb : String)
    (hgc : g.contract = some gc) (hgb : g.bucket_name = some gb)
    (hcl : client_ok g = true) :
    upload_to_s3 g now true content =
      ⟨true, [⟨gb, gc ++ "-" ++ strftime_compact now ++ ".json", content,
          "application/json"⟩], none⟩ := by
  unfold client_ok at hcl
  cases hgs : get_s3_client g with
  | error e => rw [hgs] at hcl; simp at hcl
  | ok u => simp [upload_to_s3, hgs, hgc, hgb]

theorem upload_put_error_returns_false (g : ModuleGlobals) (now : Tm)
    (content : String) :
    (upload_to_s3 g now false content).ok = false := by
  unfold upload_to_s3
  cases hgs : get_s3_client g with
  | error e => rfl
  | ok u =>
    cases g.contract with
    | none => rfl
    | some c =>
      cases g.bucket_name with
      | none => rfl
      | some b => rfl

/-- C1: for an invocation whose HTTP response is 200 with a body parsing as
a JSON array of N records (and whose archive step completes), the body of
the one put_object call is byte-identical to the response text (the handler
passes response.text itself, not a re-serialization), the outcome is 200,
and the success metadata reports station_count = N. -/
theorem success_archives_verbatim_and_reports_count (g : ModuleGlobals)
    (w : World) (c a b gc gb t : String) (records : List Json)
    (hc : w.env "CONTRACT" = some c) (ha : w.env "API_KEY" = some a)
    (hb : w.env "BUCKET_NAME" = some b)
    (hh : w.http = HttpResult.response 200 t)
    (hj : w.json_loads t = Except.ok (Json.arr records))
    (hgc : g.contract = some gc) (hgb : g.bucket_name = some gb)
    (hcl : client_ok g = true) (hput : w.s3_put_ok = true) :
    (storage_writes (handler_body g w)).map S3Put.body = [t]
    ∧ (handler_body g w).result.statusCode = 200
    ∧ station_count_of (handler_body g w).result =
        some (Json.num (records.length : Int)) := by
  have hup : upload_to_s3 g w.now w.s3_put_ok t =
      ⟨true, [⟨gb, gc ++ "-" ++ strftime_compact w.now ++ ".json", t,
        "application/json"⟩], none⟩ := by
    rw [hput]; exact upload_to_s3_success g w.now t gc gb hgc hgb hcl
  have hn : (Json.arr records).pyLen = some records.length := rfl
  have hmain := handler_body_upload_ok g w c a b t (Json.arr records)
    records.length hc ha hb hh hj hn (by rw [hup])
  rw [hmain]
  refine ⟨?_, rfl, ?_⟩
  · simp [storage_writes, hup]
  · rfl

/-- Witness for claim C1 at a concrete world: one write of the verbatim
body text, outcome 200, station_count 0 for the empty array. -/
theorem success_archives_verbatim_witness :
    (storage_writes (handler_body g_full w_success)).map S3Put.body = ["[]"]
    ∧ (handler_body g_full w_success).result.statusCode = 200
    ∧ station_count_of (handler_body g_full w_success).result =
        some (Json.num 0) :=
  success_archives_verbatim_and_reports_count g_full w_success
    "paris" "k" "bkt" "paris" "bkt" "[]" []
    rfl rfl rfl rfl rfl rfl rfl rfl rfl

/-- C2: if a required configuration variable (CONTRACT, API_KEY or
BUCKET_NAME) is missing from the invocation environment, the handler
returns statusCode 500 with an error body naming a missing variable, issues
zero HTTP requests and zero put_object calls. -/
theorem missing_config_returns_500_no_calls (g : ModuleGlobals) (w : World)
    (hmiss : w.env "CONTRACT" = none ∨ w.env "API_KEY" = none ∨
      w.env "BUCKET_NAME" = none) :
    (handler_body g w).result.statusCode = 500
    ∧ (handler_body g w).http_requests.length = 0
    ∧ storage_writes (handler_body g w) = []
    ∧ ∃ v, v ∈ ["CONTRACT", "API_KEY", "BUCKET_NAME"] ∧ w.env v = none
        ∧ (handler_body g w).result.body =
          error_body ("Required environment variable " ++ v ++ " is not set") := by
  cases hc : w.env "CONTRACT" with
  | none =>
    rw [handler_body_contract_missing g w hc]
    exact ⟨rfl, rfl, rfl, "CONTRACT", by simp, hc, rfl⟩
  | some c =>
    cases ha : w.env "API_KEY" with
    | none =>
      rw [handler_body_api_key_missing g w c hc ha]
      exact ⟨rfl, rfl, rfl, "API_KEY", by simp, ha, rfl⟩
    | some a =>
      cases hb : w.env "BUCKET_NAME" with
      | none =>
        rw [handler_body_bucket_missing g w c a hc ha hb]
        exact ⟨rfl, rfl, rfl, "BUCKET_NAME", by simp, hb, rfl⟩
      | some b => rcases hmiss with h | h | h <;> simp_all

/-- Witness for claim C2: CONTRACT unset at invocation time. -/
theorem missing_config_witness :
    (handler_body g_full w_noc).result.statusCode = 500
    ∧ (handler_body g_full w_noc).http_requests.length = 0
    ∧ storage_writes (handler_body g_full w_noc) = []
    ∧ ∃ v, v ∈ ["CONTRACT", "API_KEY", "BUCKET_NAME"] ∧ w_noc.env v = none
        ∧ (handler_body g_full w_noc).result.body =
          error_body ("Required environment variable " ++ v ++ " is not set") :=
  missing_config_returns_500_no_calls g_full w_noc (Or.inl rfl)

/-- C5: the storage key generated by upload_to_s3 is exactly
contract-timestamp.json with the timestamp in %Y%m%d-%H%M%S format; in
particular contract paris at 2024-03-01T10:15:30 yields exactly
paris-20240301-101530.json. -/
theorem storage_key_format (g : ModuleGlobals) (now : Tm) (ok : Bool)
    (content c b : String)
    (hc : g.contract = some c) (hb : g.bucket_name = some b)
    (hcl : client_ok g = true) :
    (upload_to_s3 g now ok content).attempts.map S3Put.key =
      [c ++ "-" ++ strftime_compact now ++ ".json"]
    ∧ (c = "paris" → now = ⟨2024, 3, 1, 10, 15, 30⟩ →
        (upload_to_s3 g now ok content).attempts.map S3Put.key =
          ["paris-20240301-101530.json"]) := by
  unfold client_ok at hcl
  have h1 : (upload_to_s3 g now ok content).attempts.map S3Put.key =
      [c ++ "-" ++ strftime_compact now ++ ".json"] := by
    cases hgs : get_s3_client g with
    | error e => rw [hgs] at hcl; simp at hcl
    | ok u =>
      cases ok with
      | true => simp [upload_to_s3, hgs, hc, hb]
      | false => simp [upload_to_s3, hgs, hc, hb]
  refine ⟨h1, fun hce hne => ?_⟩
  rw [h1, hce, hne]
  rfl

/-- Witness for claim C5 at the concrete contract and instant named by the
claim. -/
theorem storage_key_format_witness :
    (upload_to_s3 g_full t0 true "[]").attempts.map S3Put.key =
      ["paris-20240301-101530.json"] :=
  (storage_key_format g_full t0 true "[]" "paris" "bkt" rfl rfl rfl).2 rfl rfl

/-- C6: when the store reports an error on the write, upload_to_s3 returns
false (it is a total function into UploadResult, so no exception reaches
the caller); and whenever upload_to_s3 returns false after a successful,
parsed 200 fetch, the invocation outcome is 500, not 200. -/
theorem storage_error_absorbed_and_maps_to_500 (g : ModuleGlobals) (w : World)
    (c a b t : String) (j : Json) (n : Nat)
    (hc : w.env "CONTRACT" = some c) (ha : w.env "API_KEY" = some a)
    (hb : w.env "BUCKET_NAME" = some b)
    (hh : w.http = HttpResult.response 200 t)
    (hj : w.json_loads t = Except.ok j) (hn : j.pyLen = some n) :
    (w.s3_put_ok = false → (upload_to_s3 g w.now w.s3_put_ok t).ok = false)
    ∧ ((upload_to_s3 g w.now w.s3_put_ok t).ok = false →
        (handler_body g w).result.statusCode = 500
        ∧ (handler_body g w).result.statusCode ≠ 200) := by
  constructor
  · intro hput
    rw [hput]
    exact upload_put_error_returns_false g w.now t
  · intro hu
    rw [handler_body_upload_fails g w c a b t j n hc ha hb hh hj hn hu]
    exact ⟨rfl, by simp⟩

/-- Witness for claim C6: store rejects the write, outcome is 500. -/
theorem storage_error_witness :
    ((upload_to_s3 g_full w_put_fails.now w_put_fails.s3_put_ok "[]").ok = false)
    ∧ (handler_body g_full w_put_fails).result.statusCode = 500
    ∧ (handler_body g_full w_put_fails).result.statusCode ≠ 200 := by
  have h := storage_error_absorbed_and_maps_to_500 g_full w_put_fails
    "paris" "k" "bkt" "[]" (Json.arr []) 0 rfl rfl rfl rfl rfl rfl
  have hfalse : (upload_to_s3 g_full w_put_fails.now w_put_fails.s3_put_ok "[]").ok = false :=
    h.1 rfl
  exact ⟨hfalse, (h.2 hfalse).1, (h.2 hfalse).2⟩

/-! Exhaustive shape lemmas over all control-flow paths of handler_body. -/

theorem http_requests_shape (g : ModuleGlobals) (w : World) :
    (handler_body g w).http_requests = []
    ∨ ∃ c a, w.env "CONTRACT" = some c ∧ w.env "API_KEY" = some a ∧
        (handler_body g w).http_requests = [the_request c a] := by
  cases hc : w.env "CONTRACT" with
  | none => left; rw [handler_body_contract_missing g w hc]
  | some c =>
    cases ha : w.env "API_KEY" with
    | none => left; rw [handler_body_api_key_missing g w c hc ha]
    | some a =>
      cases hb : w.env "BUCKET_NAME" with
      | none => left; rw [handler_body_bucket_missing g w c a hc ha hb]
      | some b =>
        right
        refine ⟨c, a, rfl, rfl, ?_⟩
        cases hh : w.http with
        | timeout => rw [handler_body_timeout g w c a b hc ha hb hh]
        | request_error m =>
          rw [handler_body_request_error g w c a b m hc ha hb hh]
        | response s t =>
          by_cases hs : s = 200
          · subst hs
            cases hj : w.json_loads t with
            | error e => rw [handler_body_bad_json g w c a b t e hc ha hb hh hj]
            | ok j =>
              cases hn : j.pyLen with
              | none => rw [handler_body_no_len g w c a b t j hc ha hb hh hj hn]
              | some n =>
                cases hu : (upload_to_s3 g w.now w.s3_put_ok t).ok with
                | true =>
                  rw [handler_body_upload_ok g w c a b t j n hc ha hb hh hj hn hu]
                | false =>
                  rw [handler_body_upload_fails g w c a b t j n hc ha hb hh hj hn hu]
          · rw [handler_body_non_200 g w c a b t s hc ha hb hh hs]

theorem upload_calls_shape (g : ModuleGlobals) (w : World) :
    (handler_body g w).upload_calls = []
    ∨ ∃ t j n, w.http = HttpResult.response 200 t
        ∧ w.json_loads t = Except.ok j ∧ j.pyLen = some n
        ∧ (handler_body g w).upload_calls =
            [upload_to_s3 g w.now w.s3_put_ok t] := by
  cases hc : w.env "CONTRACT" with
  | none => left; rw [handler_body_contract_missing g w hc]
  | some c =>
    cases ha : w.env "API_KEY" with
    | none => left; rw [handler_body_api_key_missing g w c hc ha]
    | some a =>
      cases hb : w.env "BUCKET_NAME" with
      | none => left; rw [handler_body_bucket_missing g w c a hc ha hb]
      | some b =>
        cases hh : w.http with
        | timeout => left; rw [handler_body_timeout g w c a b hc ha hb hh]
        | request_error m =>
          left; rw [handler_body_request_error g w c a b m hc ha hb hh]
        | response s t =>
          by_cases hs : s = 200
          · subst hs
            cases hj : w.json_loads t with
            | error e =>
              left; rw [handler_body_bad_json g w c a b t e hc ha hb hh hj]
            | ok j =>
              cases hn : j.pyLen with
              | none =>
                left; rw [handler_body_no_len g w c a b t j hc ha hb hh hj hn]
              | some n =>
                right
                refine ⟨t, j, n, rfl, hj, hn, ?_⟩
                cases hu : (upload_to_s3 g w.now w.s3_put_ok t).ok with
                | true =>
                  rw [handler_body_upload_ok g w c a b t j n hc ha hb hh hj hn hu]
                | false =>
                  rw [handler_body_upload_fails g w c a b t j n hc ha hb hh hj hn hu]
          · left; rw [handler_body_non_200 g w c a b t s hc ha hb hh hs]

theorem handler_body_structured (g : ModuleGlobals) (w : World) :
    is_result_body (handler_body g w).result.body = true := by
  cases hc : w.env "CONTRACT" with
  | none => rw [handler_body_contract_missing g w hc]; rfl
  | some c =>
    cases ha : w.env "API_KEY" with
    | none => rw [handler_body_api_key_missing g w c hc ha]; rfl
    | some a =>
      cases hb : w.env "BUCKET_NAME" with
      | none => rw [handler_body_bucket_missing g w c a hc ha hb]; rfl
      | some b =>
        cases hh : w.http with
        | timeout => rw [handler_body_timeout g w c a b hc ha hb hh]; rfl
        | request_error m =>
          rw [handler_body_request_error g w c a b m hc ha hb hh]; rfl
        | response s t =>
          by_cases hs : s = 200
          · subst hs
            cases hj : w.json_loads t with
            | error e =>
              rw [handler_body_bad_json g w c a b t e hc ha hb hh hj]; rfl
            | ok j =>
              cases hn : j.pyLen with
              | none =>
                rw [handler_body_no_len g w c a b t j hc ha hb hh hj hn]; rfl
              | some n =>
                cases hu : (upload_to_s3 g w.now w.s3_put_ok t).ok with
                | true =>
                  rw [handler_body_upload_ok g w c a b t j n hc ha hb hh hj hn hu]
                  rfl
                | false =>
                  rw [handler_body_upload_fails g w c a b t j n hc ha hb hh hj hn hu]
                  rfl
          · rw [handler_body_non_200 g w c a b t s hc ha hb hh hs]; rfl

/-- C3: the outcome code mapping of the handler: 500 when a required
configuration variable is missing; otherwise the single GET carries
timeout 5, a timeout maps to 504, a transport failure to 500, a non-200
upstream status is passed through verbatim, a 200 with unparseable body to
500, a 200 whose parsed value has no len() to 500 (unexpected error), and a
parsed 200 maps to 200 when the archive write succeeds and 500 when it
fails. -/
theorem outcome_code_mapping (g : ModuleGlobals) (w : World) :
    (config_missing w.env = true →
      (handler_body g w).result.statusCode = 500)
    ∧ (config_missing w.env = false →
        (∀ r ∈ (handler_body g w).http_requests, r.timeout = 5)
        ∧ (w.http = HttpResult.timeout →
            (handler_body g w).result.statusCode = 504)
        ∧ (∀ m, w.http = HttpResult.request_error m →
            (handler_body g w).result.statusCode = 500)
        ∧ (∀ s t, w.http = HttpResult.response s t → s ≠ 200 →
            (handler_body g w).result.statusCode = s)
        ∧ (∀ t e, w.http = HttpResult.response 200 t →
            w.json_loads t = Except.error e →
            (handler_body g w).result.statusCode = 500)
        ∧ (∀ t j, w.http = HttpResult.response 200 t →
            w.json_loads t = Except.ok j → j.pyLen = none →
            (handler_body g w).result.statusCode = 500)
        ∧ (∀ t j n, w.http = HttpResult.response 200 t →
            w.json_loads t = Except.ok j → j.pyLen = some n →
            (((upload_to_s3 g w.now w.s3_put_ok t).ok = true →
                (handler_body g w).result.statusCode = 200)
             ∧ ((upload_to_s3 g w.now w.s3_put_ok t).ok = false →
                (handler_body g w).result.statusCode = 500)))) := by
  constructor
  · intro hmiss
    cases hc : w.env "CONTRACT" with
    | none => rw [handler_body_contract_missing g w hc]
    | some c =>
      cases ha : w.env "API_KEY" with
      | none => rw [handler_body_api_key_missing g w c hc ha]
      | some a =>
        cases hb : w.env "BUCKET_NAME" with
        | none => rw [handler_body_bucket_missing g w c a hc ha hb]
        | some b => simp [config_missing, hc, ha, hb] at hmiss
  · intro hok
    cases hc : w.env "CONTRACT" with
    | none => simp [config_missing, hc] at hok
    | some c =>
    cases ha : w.env "API_KEY" with
    | none => simp [config_missing, hc, ha] at hok
    | some a =>
    cases hb : w.env "BUCKET_NAME" with
    | none => simp [config_missing, hc, ha, hb] at hok
    | some b =>
    refine ⟨?_, ?_, ?_, ?_, ?_, ?_, ?_⟩
    · intro r hr
      rcases http_requests_shape g w with hnil | ⟨c', a', _, _, hreq⟩
      · rw [hnil] at hr; cases hr
      · rw [hreq] at hr
        rcases List.mem_singleton.mp hr with rfl
        rfl
    · intro hh
      rw [handler_body_timeout g w c a b hc ha hb hh]
    · intro m hh
      rw [handler_body_request_error g w c a b m hc ha hb hh]
    · intro s t hh hs
      rw [handler_body_non_200 g w c a b t s hc ha hb hh hs]
    · intro t e hh hj
      rw [handler_body_bad_json g w c a b t e hc ha hb hh hj]
    · intro t j hh hj hn
      rw [handler_body_no_len g w c a b t j hc ha hb hh hj hn]
    · intro t j n hh hj hn
      constructor
      · intro hu
        rw [handler_body_upload_ok g w c a b t j n hc ha hb hh hj hn hu]
      · intro hu
        rw [handler_body_upload_fails g w c a b t j n hc ha hb hh hj hn hu]

/-- Witness for claim C3: with all configuration present and a timed-out
GET, the outcome code is 504. -/
theorem outcome_code_mapping_witness :
    (handler_body g_full w_timeout).result.statusCode = 504 :=
  ((outcome_code_mapping g_full w_timeout).2 rfl).2.1 rfl

/-- C4: a put_object call is only ever issued for an invocation whose HTTP
response had status 200 and whose body text json.loads accepted; every
timeout, transport failure, non-200 response and unparseable 200 body
issues zero storage writes. -/
theorem no_storage_write_without_parsed_200 (g : ModuleGlobals) (w : World)
    (h : storage_writes (handler_body g w) ≠ []) :
    ∃ t j, w.http = HttpResult.response 200 t
      ∧ w.json_loads t = Except.ok j := by
  rcases upload_calls_shape g w with hnil | ⟨t, j, n, hh, hj, hn, hcalls⟩
  · exact absurd (by simp [storage_writes, hnil]) h
  · exact ⟨t, j, hh, hj⟩

/-- Witness for claim C4: the successful world issues a (nonempty) write,
and the theorem recovers the 200 response and parsed body behind it. -/
theorem no_storage_write_witness :
    storage_writes (handler_body g_full w_success) ≠ []
    ∧ ∃ t j, w_success.http = HttpResult.response 200 t
        ∧ w_success.json_loads t = Except.ok j := by
  have hval : storage_writes (handler_body g_full w_success) =
      [⟨"bkt", "paris-20240301-101530.json", "[]", "application/json"⟩] := rfl
  have hne : storage_writes (handler_body g_full w_success) ≠ [] := by
    rw [hval]; exact List.cons_ne_nil _ _
  exact ⟨hne, no_storage_write_without_parsed_200 g_full w_success hne⟩

/-- Counterexample to claim C7: with CONTRACT present but equal to the empty
string (API_KEY and BUCKET_NAME nonempty), the invocation does not fail
before the network call: get_env_var only rejects unset variables, so one
HTTP request is issued and the outcome comes from the upstream interaction
(here 504 from a timeout), not from validation. -/
theorem empty_config_value_still_calls_api :
    (handler_body g_full w_empty_contract).http_requests.length = 1
    ∧ (handler_body g_full w_empty_contract).result.statusCode = 504 :=
  ⟨rfl, rfl⟩

/-- C7 amended: validation rejects only unset variables; when CONTRACT is
present but empty (and the other required variables are present), the
invocation passes validation and issues its HTTP request, for every world
shape. -/
theorem present_empty_value_passes_validation (g : ModuleGlobals) (w : World)
    (hc : w.env "CONTRACT" = some "") (hae : ∃ a, w.env "API_KEY" = some a)
    (hbe : ∃ b, w.env "BUCKET_NAME" = some b) :
    (handler_body g w).http_requests.length = 1 := by
  obtain ⟨a, ha⟩ := hae
  obtain ⟨b, hb⟩ := hbe
  cases hh : w.http with
  | timeout => rw [handler_body_timeout g w "" a b hc ha hb hh]; rfl
  | request_error m =>
    rw [handler_body_request_error g w "" a b m hc ha hb hh]; rfl
  | response s t =>
    by_cases hs : s = 200
    · subst hs
      cases hj : w.json_loads t with
      | error e => rw [handler_body_bad_json g w "" a b t e hc ha hb hh hj]; rfl
      | ok j =>
        cases hn : j.pyLen with
        | none => rw [handler_body_no_len g w "" a b t j hc ha hb hh hj hn]; rfl
        | some n =>
          cases hu : (upload_to_s3 g w.now w.s3_put_ok t).ok with
          | true =>
            rw [handler_body_upload_ok g w "" a b t j n hc ha hb hh hj hn hu]
            rfl
          | false =>
            rw [handler_body_upload_fails g w "" a b t j n hc ha hb hh hj hn hu]
            rfl
    · rw [handler_body_non_200 g w "" a b t s hc ha hb hh hs]; rfl

/-- Witness for the amended C7 at the concrete empty-contract world. -/
theorem present_empty_value_witness :
    (handler_body g_full w_empty_contract).http_requests.length = 1 :=
  present_empty_value_passes_validation g_full w_empty_contract
    rfl ⟨"k", rfl⟩ ⟨"bkt", rfl⟩

/-- Counterexample to claim C8: an event payload that is not a mapping (here
a JSON list), together with a context carrying an aws_request_id, makes the
log-correlation prelude on lines 95-99 call event.get outside every try
block, and the resulting AttributeError escapes the entry point as an
unhandled fault instead of a structured result. -/
theorem nonmapping_event_raises_unhandled :
    lambda_handler g_full (Json.arr []) (PyContext.truthyWithRequestId "r1")
      w_success =
    Except.error "AttributeError: event object has no attribute get" := rfl

/-- C8 amended: whenever the entry point gets past its log-correlation
prelude (the event is a mapping, or the context is falsy or lacks an
aws_request_id), every modelled failure is caught inside lambda_handler and
converted into a structured result with a statusCode and one of the two
handler body shapes; only a non-mapping event combined with a context
carrying aws_request_id escapes as an unhandled AttributeError. -/
theorem handler_returns_structured_result_when_prelude_safe
    (g : ModuleGlobals) (event : Json) (context : PyContext) (w : World)
    (h : event.hasGetMethod = true ∨
      ∀ rid, context ≠ PyContext.truthyWithRequestId rid) :
    ∃ out, lambda_handler g event context w = Except.ok out
      ∧ is_result_body out.result.body = true := by
  refine ⟨handler_body g w, ?_, handler_body_structured g w⟩
  unfold lambda_handler
  cases context with
  | falsy => rfl
  | truthyNoRequestId => rfl
  | truthyWithRequestId rid =>
    rcases h with h | h
    · simp [h]
    · exact absurd rfl (h rid)

/-- Witness for the amended C8 at a concrete mapping event. -/
theorem structured_result_witness :
    ∃ out, lambda_handler g_full (Json.obj []) PyContext.falsy w_success =
        Except.ok out
      ∧ is_result_body out.result.body = true :=
  handler_returns_structured_result_when_prelude_safe g_full (Json.obj [])
    PyContext.falsy w_success (Or.inr (fun _ h => PyContext.noConfusion h))

/-- C9: two upload_to_s3 calls with identical contract and content inside
the same wall-clock second issue put_object calls under the very same key,
so applying the second acknowledged write after the first leaves the store
exactly as the second alone would (the second silently overwrites the
first), and no key other than the one generated key is touched: the store
ends up holding one object, not two. -/
theorem same_second_key_collision_overwrite (g : ModuleGlobals) (t : Tm)
    (content c b : String) (st : S3Store)
    (hc : g.contract = some c) (hb : g.bucket_name = some b)
    (hcl : client_ok g = true) :
    (upload_to_s3 g t true content).attempts.map S3Put.key =
      [c ++ "-" ++ strftime_compact t ++ ".json"]
    ∧ apply_upload (apply_upload st (upload_to_s3 g t true content))
        (upload_to_s3 g t true content)
      = apply_upload st (upload_to_s3 g t true content)
    ∧ ∀ bk, bk ≠ (b, c ++ "-" ++ strftime_compact t ++ ".json") →
        apply_upload (apply_upload st (upload_to_s3 g t true content))
          (upload_to_s3 g t true content) bk = st bk := by
  have hup := upload_to_s3_success g t content c b hc hb hcl
  rw [hup]
  refine ⟨rfl, ?_, ?_⟩
  · funext bk
    by_cases hbk : bk = (b, c ++ "-" ++ strftime_compact t ++ ".json") <;>
      simp [apply_upload, apply_put, hbk]
  · intro bk hbk
    simp [apply_upload, apply_put, hbk]

/-- Witness for claim C9 on the empty store at the concrete instant t0. -/
theorem key_collision_witness :
    apply_upload (apply_upload empty_store (upload_to_s3 g_full t0 true "[]"))
        (upload_to_s3 g_full t0 true "[]")
      = apply_upload empty_store (upload_to_s3 g_full t0 true "[]") :=
  (same_second_key_collision_overwrite g_full t0 "[]" "paris" "bkt"
    empty_store rfl rfl rfl).2.1

/-- C10: upload_to_s3 reads contract and bucket_name (and key_id) from the
module-level globals, not from the values lambda_handler validated.  With
every variable unset at module load, all five globals stay unbound; if the
three required variables are set by invocation time, validation passes and
the fetch succeeds, yet upload_to_s3 absorbs a NameError (first raised by
get_s3_client touching the unbound key_id) into a False return, no
put_object call is issued, and the invocation reports the storage-failure
outcome 500.  Separately, with globals loaded for contract lyon while the
invocation validates CONTRACT=paris, the generated storage key uses the
stale global lyon. -/
theorem module_globals_stale_config_storage_failure :
    module_load env_at_load = ⟨none, none, none, none, none⟩
    ∧ (handler_body (module_load env_at_load) w_success).http_requests.length = 1
    ∧ (handler_body (module_load env_at_load) w_success).result.statusCode = 500
    ∧ (handler_body (module_load env_at_load) w_success).upload_calls.map
        UploadResult.ok = [false]
    ∧ (handler_body (module_load env_at_load) w_success).upload_calls.map
        UploadResult.absorbed = [some "NameError: name key_id is not defined"]
    ∧ storage_writes (handler_body (module_load env_at_load) w_success) = []
    ∧ (storage_writes (handler_body g_lyon w_success)).map S3Put.key =
        ["lyon-20240301-101530.json"] :=
  ⟨rfl, rfl, rfl, rfl, rfl, rfl, rfl⟩

end VlsLambda
